import Mathlib

/-!
Shallow embedding of `fetch_stats.py` (sleeper-stats-updater).

The script has three parts:
* `get_current_nfl_week` — a pure date computation (season-year, week) from the
  current UTC datetime;
* `fetch_and_process_data` — two HTTP fetches, a dictionary join and a reshape;
* `update_google_sheet` — delete-then-append persistence into a spreadsheet,
  plus the `__main__` orchestration.

HTTP responses, credentials and the spreadsheet are modelled as explicit inputs;
the spreadsheet mutation is modelled as a function from the old sheet contents
to the new ones.
-/

namespace SleeperStats

/-- A dynamically typed Python value, as far as the claims need it:
the resolver returns either integers or strings in its result pair. -/
inductive PyVal where
  | int : Int → PyVal
  | str : String → PyVal
deriving DecidableEq

/-- A Python `datetime` (UTC), at second resolution: a proleptic-Gregorian
calendar date plus the number of seconds after midnight (`sod`).
`datetime.utcnow()` also carries microseconds; only whole-day arithmetic is
performed on the time-of-day, so second resolution loses nothing. -/
structure PyDatetime where
  year : Nat
  month : Nat
  day : Nat
  sod : Nat
deriving DecidableEq

/-- Gregorian leap-year test. -/
def isLeap (y : Nat) : Bool :=
  (y % 4 == 0 && y % 100 != 0) || y % 400 == 0

/-- Number of days of a month in the Gregorian calendar. -/
def daysInMonth (y m : Nat) : Nat :=
  if m = 2 then (if isLeap y then 29 else 28)
  else if m = 4 ∨ m = 6 ∨ m = 9 ∨ m = 11 then 30
  else 31

/-- The dates representable by Python `datetime` (year 1 to 9999), with a
well-formed time of day. -/
def validDT (t : PyDatetime) : Prop :=
  1 ≤ t.year ∧ t.year ≤ 9999 ∧ 1 ≤ t.month ∧ t.month ≤ 12 ∧
    1 ≤ t.day ∧ t.day ≤ daysInMonth t.year t.month ∧ t.sod < 86400

instance (t : PyDatetime) : Decidable (validDT t) := by
  unfold validDT; infer_instance

/-- Day number of a Gregorian date, counted from 0000-03-01 (the standard
civil-from-days construction, restricted to years ≥ 1 so that all arithmetic
stays in `Nat`). -/
def rdays (y m d : Nat) : Nat :=
  let y' := if m ≤ 2 then y - 1 else y
  let era := y' / 400
  let yoe := y' % 400
  let mp := if 2 < m then m - 3 else m + 9
  let doy := (153 * mp + 2) / 5 + (d - 1)
  let doe := yoe * 365 + yoe / 4 - yoe / 100 + doy
  era * 146097 + doe

/-- Python's `datetime.weekday()`: Monday = 0, ..., Sunday = 6.
Day 0 of `rdays` (0000-03-01 proleptic Gregorian) is a Wednesday, hence
the offset 2. -/
def pyWeekday (y m d : Nat) : Nat :=
  (rdays y m d + 2) % 7

/-- Absolute timestamp of a datetime, in seconds from 0000-03-01T00:00:00.
Python `datetime` comparison and subtraction are chronological, i.e. they
compare/subtract these timestamps. -/
def dtKey (t : PyDatetime) : Nat :=
  rdays t.year t.month t.day * 86400 + t.sod

/-- `(a - b).days` for two datetimes: Python `timedelta` normalises with the
day count rounded toward minus infinity, i.e. floor division. -/
def tdDays (a b : PyDatetime) : Int :=
  ((dtKey a : Int) - (dtKey b : Int)).fdiv 86400

/-- The anchor-search loop of `get_current_nfl_week`:
`for day in range(1, 8): if datetime(year, 9, day).weekday() == 1: ... break`.
Returns `none` exactly when the loop leaves `first_tuesday_sept = None`. -/
def firstTuesdaySept (year : Nat) : Option PyDatetime :=
  ((List.range' 1 7).find? (fun day => pyWeekday year 9 day == 1)).map
    (fun day => ⟨year, 9, day, 0⟩)

/-- `get_current_nfl_week()`, as a function of the current UTC datetime.
Mirrors the source: compute the first Tuesday of September of the current
year; strictly before it return `(str(year - 1), '18')`; otherwise
`week = (now - anchor).days // 7 + 1`, returning
`(str(year), str(week if week <= 18 else 18))`.  If the anchor search found
nothing the Python code would compare against `None` and raise; that error
path is `none` here. -/
def get_current_nfl_week (now : PyDatetime) : Option (PyVal × PyVal) :=
  match firstTuesdaySept now.year with
  | none => none
  | some first_tuesday_sept =>
    if dtKey now < dtKey first_tuesday_sept then
      some (.str (toString ((now.year : Int) - 1)), .str "18")
    else
      let week : Int := (tdDays now first_tuesday_sept).fdiv 7 + 1
      some (.str (toString (now.year : Int)),
            .str (toString (if week ≤ 18 then week else (18 : Int))))

/-- A value of the roster dictionary returned by `/players/nfl`: an object
whose `first_name`, `last_name`, `team`, `position` fields may be absent. -/
structure SleeperPlayer where
  first_name : Option String
  last_name : Option String
  team : Option String
  position : Option String
deriving DecidableEq

/-- A value of `player_map`: the projection the script builds per player. -/
structure PlayerEntry where
  name : String
  team : String
  position : String
deriving DecidableEq

/-- An HTTP response: a status code and the decoded JSON body. -/
structure HttpResponse (α : Type) where
  status_code : Int
  body : α

/-- Lookup in a Python dict built by inserting the listed key/value pairs in
order: a later binding of the same key overwrites an earlier one, so the
*last* binding wins. -/
def mapGet (m : List (String × α)) (k : String) : Option α :=
  m.reverse.lookup k

/-- `stats.get(key, default)` on a weekly stat object (stat-name → number). -/
def statGet (stats : List (String × Int)) (k : String) (default : Int) : Int :=
  (mapGet stats k).getD default

/-- Python `str.strip()`: remove leading and trailing whitespace. -/
def pyStrip (s : String) : String :=
  ⟨((s.data.dropWhile Char.isWhitespace).reverse.dropWhile Char.isWhitespace).reverse⟩

/-- One entry of `player_map`:
`name = f"{get('first_name','')} {get('last_name','')}".strip()`,
`team`/`position` default to `'N/A'`. -/
def mkPlayerEntry (p : SleeperPlayer) : PlayerEntry :=
  { name := pyStrip ((p.first_name.getD "") ++ " " ++ (p.last_name.getD ""))
    team := p.team.getD "N/A"
    position := p.position.getD "N/A" }

/-- `player_map`, keyed like `players_data`. -/
def player_map (players_data : List (String × SleeperPlayer)) :
    List (String × PlayerEntry) :=
  players_data.map (fun e => (e.1, mkPlayerEntry e.2))

/-- The record dict appended to `all_player_stats` for one joined player.
Fields are listed in the column order selected at the end of `__main__`. -/
structure StatRecord where
  week : String
  playerName : String
  team : String
  position : String
  receptions : Int
  receivingYards : Int
  receivingTDs : Int
  rushingYards : Int
  rushingTDs : Int
  passingAttempts : Int
  targets : Int
  snapCounts : Int
deriving DecidableEq

/-- Builds the record for one `(player_id, stats)` entry whose id was found in
`player_map`: each stat is read with `stats.get(key, 0)`. -/
def mkRecord (week : String) (info : PlayerEntry)
    (stats : List (String × Int)) : StatRecord :=
  { week := week
    playerName := info.name
    team := info.team
    position := info.position
    receptions := statGet stats "rec" 0
    receivingYards := statGet stats "rec_yd" 0
    receivingTDs := statGet stats "rec_td" 0
    rushingYards := statGet stats "rush_yd" 0
    rushingTDs := statGet stats "rush_td" 0
    passingAttempts := statGet stats "pass_att" 0
    targets := statGet stats "rec_tgt" 0
    snapCounts := statGet stats "off_snp" 0 }

/-- `fetch_and_process_data(year, week)`, with the two HTTP responses made
explicit inputs.  Returns `none` (Python `None`) when either response has a
non-200 status; otherwise the inner join of the weekly stats with
`player_map`, in the iteration order of the weekly stat dict, skipping ids
absent from the roster (`if not player_info: continue`).  The `year` argument
only selects the URL fetched, so it does not appear in the result. -/
def fetch_and_process_data (year week : String)
    (players_response : HttpResponse (List (String × SleeperPlayer)))
    (stats_response : HttpResponse (List (String × List (String × Int)))) :
    Option (List StatRecord) :=
  if players_response.status_code ≠ 200 then none
  else if stats_response.status_code ≠ 200 then none
  else
    some (stats_response.body.filterMap (fun e =>
      (mapGet (player_map players_response.body) e.1).map
        (fun info => mkRecord week info e.2)))

/-- The snap filter of `__main__`: `df = df[df['SnapCounts'] > 0]`. -/
def snapFilter (records : List StatRecord) : List StatRecord :=
  records.filter (fun r => 0 < r.snapCounts)

/-- `df.values.tolist()` row for one record, after the column projection of
`__main__`; the spreadsheet stores displayed cell values, modelled as
strings. -/
def recordToRow (r : StatRecord) : List String :=
  [r.week, r.playerName, r.team, r.position,
   toString r.receptions, toString r.receivingYards, toString r.receivingTDs,
   toString r.rushingYards, toString r.rushingTDs, toString r.passingAttempts,
   toString r.targets, toString r.snapCounts]

/-- `sheet.delete_rows(row_index)` for a 1-based row index. -/
def delRow (sheet : List (List String)) (row_index : Nat) : List (List String) :=
  sheet.take (row_index - 1) ++ sheet.drop row_index

/-- `sheet.findall(query, in_column=1)`, reduced to the 1-based row positions
of the matching cells; `findall` scans the grid in order, so the positions
come out ascending. -/
def findallCol1 (sheet : List (List String)) (query : String) : List Nat :=
  ((List.range sheet.length).filter
      (fun i => ((sheet[i]?).map (fun row => row.head? == some query)).getD false)).map
    (· + 1)

/-- `update_google_sheet(data_df, week_to_update)`, as a function from the old
sheet contents to the new ones.  Credential loading is abstracted to the
boolean `creds_ok` (some provider worked); when it is false the function
returns before touching the sheet.  Otherwise it deletes the matching rows of
column 1 bottom-up — `sorted(rows_to_delete, reverse=True)` is the reversal of
the ascending `findall` positions — and then, only if `data_df` is nonempty,
appends the new rows. -/
def update_google_sheet (creds_ok : Bool) (sheet : List (List String))
    (data : List StatRecord) (week_to_update : String) : List (List String) :=
  if creds_ok = false then sheet
  else
    let rows_to_delete := findallCol1 sheet week_to_update
    let sheet1 := rows_to_delete.reverse.foldl delRow sheet
    if data.isEmpty then sheet1
    else sheet1 ++ data.map recordToRow

/-- The `__main__` block, as a function from the old sheet contents to the new
ones: run the pipeline; `if processed_records:` is false for both `None` and
the empty list; `if not df.empty:` re-checks emptiness of the same rows; then
the snap filter, the column projection (already reflected in `recordToRow`),
and the sheet update. -/
def script_main (year week : String)
    (players_response : HttpResponse (List (String × SleeperPlayer)))
    (stats_response : HttpResponse (List (String × List (String × Int))))
    (creds_ok : Bool) (sheet : List (List String)) : List (List String) :=
  match fetch_and_process_data year week players_response stats_response with
  | none => sheet
  | some records =>
    if records.isEmpty then sheet
    else if records.isEmpty then sheet
    else update_google_sheet creds_ok sheet (snapFilter records) week

example : pyWeekday 1970 1 1 = 3 := by decide
example : pyWeekday 2024 9 1 = 6 := by decide
example : pyWeekday 2024 9 3 = 1 := by decide
example : firstTuesdaySept 2024 = some ⟨2024, 9, 3, 0⟩ := by decide
example : get_current_nfl_week ⟨2024, 10, 15, 0⟩ =
    some (.str "2024", .str "7") := by decide
example : get_current_nfl_week ⟨2024, 7, 1, 3600⟩ =
    some (.str "2023", .str "18") := by decide

example :
    fetch_and_process_data "2024" "5"
      ⟨200, [("1", ⟨some "Jon", some "Doe", some "ABC", some "WR"⟩)]⟩
      ⟨200, [("1", [("rec", 3), ("rec_yd", 40), ("off_snp", 20)])]⟩ =
    some [⟨"5", "Jon Doe", "ABC", "WR", 3, 40, 0, 0, 0, 0, 0, 20⟩] := by decide

example :
    script_main "2024" "5"
      ⟨200, [("1", ⟨some "Jon", some "Doe", some "ABC", some "WR"⟩)]⟩
      ⟨200, [("1", [("rec", 3), ("rec_yd", 40), ("off_snp", 20)])]⟩
      true [["4", "x"]] =
    [["4", "x"],
     ["5", "Jon Doe", "ABC", "WR", "3", "40", "0", "0", "0", "0", "0", "20"]] := by
  decide

/-! ### Lemmas about the week resolver -/

/-- The day number of September 0 of a year (so that September `d` has day
number `septBase y + d`). -/
def septBase (y : Nat) : Nat :=
  (y / 400) * 146097 + ((y % 400) * 365 + (y % 400) / 4 - (y % 400) / 100 + 183)

lemma rdays_sept (y d : Nat) (hd : 1 ≤ d) : rdays y 9 d = septBase y + d := by
  unfold rdays septBase
  norm_num
  omega

lemma pyWeekday_sept (y d : Nat) (hd : 1 ≤ d) :
    pyWeekday y 9 d = (septBase y + 2 + d) % 7 := by
  unfold pyWeekday
  rw [rdays_sept y d hd]
  omega

/-- Among seven consecutive day numbers there is exactly one whose weekday
residue is 1: the heart of the totality argument for the anchor search. -/
lemma exists_unique_day (B : Nat) :
    ∃! d : Nat, (1 ≤ d ∧ d ≤ 7) ∧ (B + d) % 7 = 1 := by
  refine ⟨7 - (B + 6) % 7, ⟨⟨by omega, by omega⟩, by omega⟩, ?_⟩
  rintro y ⟨⟨h1, h2⟩, h3⟩
  omega

/-- The anchor search always succeeds, and it returns midnight of a day 1–7 of
September of the given year whose weekday is Tuesday. -/
lemma firstTuesdaySept_eq_some (year : Nat) :
    ∃ d, 1 ≤ d ∧ d ≤ 7 ∧ pyWeekday year 9 d = 1 ∧
      firstTuesdaySept year = some ⟨year, 9, d, 0⟩ := by
  have hex : ∃ x, x ∈ List.range' 1 7 ∧ (pyWeekday year 9 x == 1) = true := by
    obtain ⟨d, ⟨⟨h1, h2⟩, h3⟩, -⟩ := exists_unique_day (septBase year + 2)
    refine ⟨d, by rw [List.mem_range'_1]; omega, ?_⟩
    rw [beq_iff_eq, pyWeekday_sept year d h1]
    exact h3
  obtain ⟨d0, hfind⟩ :=
    Option.isSome_iff_exists.mp (List.find?_isSome.mpr hex)
  have hd0mem := List.mem_of_find?_eq_some hfind
  have hd0p := List.find?_some hfind
  rw [List.mem_range'_1] at hd0mem
  refine ⟨d0, by omega, by omega, by simpa using hd0p, ?_⟩
  unfold firstTuesdaySept
  rw [hfind]
  rfl

lemma firstTuesdaySept_fields {year : Nat} {anchor : PyDatetime}
    (h : firstTuesdaySept year = some anchor) :
    anchor.year = year ∧ anchor.month = 9 ∧ 1 ≤ anchor.day ∧ anchor.day ≤ 7 ∧
      anchor.sod = 0 ∧ pyWeekday year 9 anchor.day = 1 := by
  obtain ⟨d, h1, h2, h3, h4⟩ := firstTuesdaySept_eq_some year
  rw [h4, Option.some_inj] at h
  subst h
  exact ⟨rfl, rfl, h1, h2, rfl, h3⟩

lemma resolver_before {now anchor : PyDatetime}
    (ha : firstTuesdaySept now.year = some anchor)
    (hlt : dtKey now < dtKey anchor) :
    get_current_nfl_week now =
      some (.str (toString ((now.year : Int) - 1)), .str "18") := by
  unfold get_current_nfl_week
  rw [ha]
  simp [hlt]

lemma resolver_after {now anchor : PyDatetime}
    (ha : firstTuesdaySept now.year = some anchor)
    (hge : ¬ dtKey now < dtKey anchor) :
    get_current_nfl_week now =
      some (.str (toString (now.year : Int)),
        .str (toString
          (if (tdDays now anchor).fdiv 7 + 1 ≤ 18
           then (tdDays now anchor).fdiv 7 + 1 else (18 : Int)))) := by
  unfold get_current_nfl_week
  rw [ha]
  simp [hge]

lemma tdDays_eq_ediv (now anchor : PyDatetime) :
    tdDays now anchor = ((dtKey now : Int) - dtKey anchor) / 86400 := by
  unfold tdDays
  exact Int.fdiv_eq_ediv _ (by norm_num)

/-- In the in-season branch, the computed week is an integer in `[1, 18]`. -/
lemma resolver_week_bounds {now anchor : PyDatetime}
    (ha : firstTuesdaySept now.year = some anchor)
    (hge : ¬ dtKey now < dtKey anchor) :
    ∃ w : Int, 1 ≤ w ∧ w ≤ 18 ∧
      get_current_nfl_week now =
        some (.str (toString (now.year : Int)), .str (toString w)) := by
  refine ⟨if (tdDays now anchor).fdiv 7 + 1 ≤ 18
          then (tdDays now anchor).fdiv 7 + 1 else (18 : Int),
         ?_, ?_, resolver_after ha hge⟩
  · have h0 : (0 : Int) ≤ (dtKey now : Int) - dtKey anchor := by omega
    have h1 : 0 ≤ tdDays now anchor := by
      rw [tdDays_eq_ediv]
      exact Int.ediv_nonneg h0 (by norm_num)
    have h2 : 0 ≤ (tdDays now anchor).fdiv 7 := by
      rw [Int.fdiv_eq_ediv _ (by norm_num : (0:Int) ≤ 7)]
      exact Int.ediv_nonneg h1 (by norm_num)
    split <;> omega
  · split <;> omega

/-! ### Lemmas about the delete-then-append sheet update -/

lemma findallCol1_pos {sheet : List (List String)} {q : String} :
    ∀ i ∈ findallCol1 sheet q, 1 ≤ i := by
  intro i hi
  unfold findallCol1 at hi
  obtain ⟨j, -, rfl⟩ := List.mem_map.mp hi
  omega

lemma findallCol1_cons (row : List String) (sheet : List (List String))
    (q : String) :
    findallCol1 (row :: sheet) q =
      (if row.head? == some q then [1] else []) ++
        (findallCol1 sheet q).map (· + 1) := by
  unfold findallCol1
  rw [List.length_cons, List.range_succ_eq_map, List.filter_cons]
  by_cases hp : (row.head? == some q) = true <;>
    simp [hp, List.filter_map, List.map_map, Function.comp_def,
      List.getElem?_cons_succ, Nat.succ_eq_add_one]

lemma foldl_delRow_map_succ (a : List String) (l : List (List String))
    (idxs : List Nat) (h : ∀ i ∈ idxs, 1 ≤ i) :
    (idxs.map (· + 1)).foldl delRow (a :: l) = a :: idxs.foldl delRow l := by
  induction idxs generalizing l with
  | nil => rfl
  | cons i rest ih =>
    simp only [List.map_cons, List.foldl_cons]
    have hi : 1 ≤ i := h i (List.mem_cons_self i rest)
    have hstep : delRow (a :: l) (i + 1) = a :: delRow l i := by
      obtain ⟨j, rfl⟩ : ∃ j, i = j + 1 := ⟨i - 1, by omega⟩
      simp [delRow]
    rw [hstep]
    exact ih (delRow l i) (fun x hx => h x (List.mem_cons_of_mem i hx))

/-- Deleting the `findall` positions bottom-up removes exactly the rows whose
first cell matches the query. -/
lemma foldl_delRow_findall (sheet : List (List String)) (q : String) :
    (findallCol1 sheet q).reverse.foldl delRow sheet =
      sheet.filter (fun row => !(row.head? == some q)) := by
  induction sheet with
  | nil => rfl
  | cons row sheet ih =>
    rw [findallCol1_cons, List.filter_cons, List.reverse_append,
      ← List.map_reverse, List.foldl_append,
      foldl_delRow_map_succ row sheet _
        (fun i hi => findallCol1_pos i (List.mem_reverse.mp hi)), ih]
    by_cases hp : (row.head? == some q) = true
    · simp [hp, delRow]
    · simp [hp]

lemma string_of_int_18 : ("18" : String) = toString (18 : Int) := by decide

/-! ### Shared sample data for witnesses and counterexamples -/

def samplePlayer : SleeperPlayer := ⟨some "Jon", some "Doe", some "ABC", some "WR"⟩

def samplePlayersResp : HttpResponse (List (String × SleeperPlayer)) :=
  ⟨200, [("1", samplePlayer)]⟩

def sampleTwoIdStatsResp : HttpResponse (List (String × List (String × Int))) :=
  ⟨200, [("1", [("off_snp", 12)]), ("99", [("off_snp", 30)])]⟩

def benchedStatsResp : HttpResponse (List (String × List (String × Int))) :=
  ⟨200, [("1", [("off_snp", 0)])]⟩

def sampleSheetRow : List String :=
  ["5", "Jon Doe", "ABC", "WR", "3", "40", "0", "0", "0", "0", "0", "20"]

def sampleRecordPlayed : StatRecord :=
  ⟨"5", "Jon Doe", "ABC", "WR", 3, 40, 0, 0, 0, 0, 0, 20⟩

def sampleRecordBenched : StatRecord :=
  ⟨"5", "Sam Poe", "DEF", "TE", 0, 0, 0, 0, 0, 0, 0, 0⟩

/-! ### Claims -/

/-- C1: for every valid input date the resolver computes the season anchor
(first Tuesday of September of the date's year) and returns the encoding of
(year−1, 18) strictly before the anchor; of (year, k+1) when the date is
exactly `7*k` days after the anchor with `k < 17` (so the anchor date itself
yields week 1); and of (year, 18) when `k ≥ 17` (clamping). -/
theorem C1_week_resolver (now : PyDatetime) (hv : validDT now) :
    ∃ anchor, firstTuesdaySept now.year = some anchor ∧
      (dtKey now < dtKey anchor →
        get_current_nfl_week now =
          some (.str (toString ((now.year : Int) - 1)), .str "18")) ∧
      (∀ k : Nat,
        rdays now.year now.month now.day =
            rdays anchor.year anchor.month anchor.day + 7 * k →
          (k < 17 →
            get_current_nfl_week now =
              some (.str (toString (now.year : Int)),
                    .str (toString ((k : Int) + 1)))) ∧
          (17 ≤ k →
            get_current_nfl_week now =
              some (.str (toString (now.year : Int)), .str "18"))) := by
  obtain ⟨d, hd1, hd7, hwd, ha⟩ := firstTuesdaySept_eq_some now.year
  refine ⟨⟨now.year, 9, d, 0⟩, ha, fun hlt => resolver_before ha hlt, ?_⟩
  intro k hk
  have hk' : rdays now.year now.month now.day = rdays now.year 9 d + 7 * k := hk
  have hsod : now.sod < 86400 := hv.2.2.2.2.2.2
  have hge : ¬ dtKey now < dtKey (⟨now.year, 9, d, 0⟩ : PyDatetime) := by
    show ¬ (rdays now.year now.month now.day * 86400 + now.sod <
            rdays now.year 9 d * 86400 + 0)
    rw [hk']
    omega
  have ht : tdDays now ⟨now.year, 9, d, 0⟩ = 7 * (k : Int) := by
    rw [tdDays_eq_ediv]
    show (((rdays now.year now.month now.day * 86400 + now.sod : Nat) : Int) -
          ((rdays now.year 9 d * 86400 + 0 : Nat) : Int)) / 86400 = 7 * (k : Int)
    rw [hk']
    push_cast
    omega
  have hres := resolver_after ha hge
  rw [ht] at hres
  have hdiv : (7 * (k : Int)).fdiv 7 + 1 = (k : Int) + 1 := by
    rw [Int.fdiv_eq_ediv _ (by norm_num : (0 : Int) ≤ 7)]
    omega
  rw [hdiv] at hres
  constructor
  · intro hk17
    rw [if_pos (by omega : (k : Int) + 1 ≤ 18)] at hres
    exact hres
  · intro hk17
    have hcap : (if (k : Int) + 1 ≤ 18 then (k : Int) + 1 else (18 : Int)) = 18 := by
      split <;> omega
    rw [hcap] at hres
    rw [hres, string_of_int_18]

/-- Witness for C1 at a concrete date: 2024-09-10 is exactly 7 days after the
2024 anchor (Tuesday 2024-09-03), so the resolver returns week 2. -/
theorem C1_week_resolver_witness :
    get_current_nfl_week ⟨2024, 9, 10, 0⟩ = some (.str "2024", .str "2") := by
  obtain ⟨anchor, ha, -, hk⟩ := C1_week_resolver ⟨2024, 9, 10, 0⟩ (by decide)
  rw [show firstTuesdaySept (PyDatetime.year ⟨2024, 9, 10, 0⟩) =
        some ⟨2024, 9, 3, 0⟩ from by decide] at ha
  obtain rfl := Option.some_inj.mp ha
  have h := (hk 1 (by decide)).1 (by decide)
  rw [h]
  decide

/-- C6 counterexample: the resolver does not return integer values.  At
2024-10-15 the claim "both components of the result are integer values" is
false: the code returns `(str(year), str(week))`, i.e. string values. -/
theorem C6_counterexample :
    ¬ ∃ y w : Int, get_current_nfl_week ⟨2024, 10, 15, 0⟩ =
      some (.int y, .int w) := by
  rintro ⟨y, w, h⟩
  rw [show get_current_nfl_week ⟨2024, 10, 15, 0⟩ =
        some (.str "2024", .str "7") from by decide] at h
  simp at h

/-- C6 amended: the resolver returns the decimal string representations of two
integers — the season year, which is the four-digit current year adjusted
(to `year − 1`) only in the offseason branch, and a week number in
`[1, 18]`. -/
theorem C6_amended_string_encoded_ints (now : PyDatetime) (hv : validDT now) :
    ∃ (anchor : PyDatetime) (y w : Int), firstTuesdaySept now.year = some anchor ∧
      get_current_nfl_week now = some (.str (toString y), .str (toString w)) ∧
      ((dtKey now < dtKey anchor ∧ y = (now.year : Int) - 1 ∧ w = 18) ∨
       (¬ dtKey now < dtKey anchor ∧ y = (now.year : Int) ∧ 1 ≤ w ∧ w ≤ 18)) := by
  obtain ⟨d, hd1, hd7, hwd, ha⟩ := firstTuesdaySept_eq_some now.year
  by_cases hlt : dtKey now < dtKey (⟨now.year, 9, d, 0⟩ : PyDatetime)
  · refine ⟨_, (now.year : Int) - 1, 18, ha, ?_, Or.inl ⟨hlt, rfl, rfl⟩⟩
    rw [resolver_before ha hlt, string_of_int_18]
  · obtain ⟨w, h1, h2, h3⟩ := resolver_week_bounds ha hlt
    exact ⟨_, _, w, ha, h3, Or.inr ⟨hlt, rfl, h1, h2⟩⟩

/-- Witness for the amended C6 at a concrete date. -/
theorem C6_amended_witness :
    ∃ (anchor : PyDatetime) (y w : Int), firstTuesdaySept (2024 : Nat) = some anchor ∧
      get_current_nfl_week ⟨2024, 10, 15, 0⟩ =
        some (.str (toString y), .str (toString w)) := by
  obtain ⟨anchor, y, w, h1, h2, -⟩ :=
    C6_amended_string_encoded_ints ⟨2024, 10, 15, 0⟩ (by decide)
  exact ⟨anchor, y, w, h1, h2⟩

/-- C7: the resolver is total over valid input dates: every year has exactly
one day among September 1–7 whose weekday is Tuesday, the anchor search always
succeeds, and the resolver never reaches the missing-anchor (`None`)
comparison. -/
theorem C7_resolver_total (now : PyDatetime) (hv : validDT now) :
    (∃! d : Nat, (1 ≤ d ∧ d ≤ 7) ∧ pyWeekday now.year 9 d = 1) ∧
      (firstTuesdaySept now.year).isSome ∧
      (get_current_nfl_week now).isSome := by
  refine ⟨?_, ?_⟩
  · obtain ⟨d, ⟨hd, hw⟩, hu⟩ := exists_unique_day (septBase now.year + 2)
    refine ⟨d, ⟨hd, by rw [pyWeekday_sept now.year d hd.1]; exact hw⟩, ?_⟩
    rintro y ⟨⟨hy1, hy7⟩, hyw⟩
    exact hu y ⟨⟨hy1, hy7⟩, by rw [← pyWeekday_sept now.year y hy1]; exact hyw⟩
  · obtain ⟨d, hd1, hd7, hwd, ha⟩ := firstTuesdaySept_eq_some now.year
    refine ⟨by rw [ha]; rfl, ?_⟩
    by_cases hlt : dtKey now < dtKey (⟨now.year, 9, d, 0⟩ : PyDatetime)
    · rw [resolver_before ha hlt]; rfl
    · obtain ⟨w, -, -, h3⟩ := resolver_week_bounds ha hlt
      rw [h3]; rfl

/-- Witness for C7 at a concrete date. -/
theorem C7_resolver_total_witness :
    (firstTuesdaySept (2024 : Nat)).isSome ∧
      (get_current_nfl_week ⟨2024, 12, 31, 86399⟩).isSome := by
  obtain ⟨-, h1, h2⟩ := C7_resolver_total ⟨2024, 12, 31, 86399⟩ (by decide)
  exact ⟨h1, h2⟩

/-- C9: for every valid input date the week component of the resolver's result
encodes an integer between 1 and 18 inclusive, so no run requests stats for a
week outside `[1, 18]`. -/
theorem C9_week_in_range (now : PyDatetime) (hv : validDT now) :
    ∃ (p : PyVal × PyVal) (w : Int), get_current_nfl_week now = some p ∧
      p.2 = .str (toString w) ∧ 1 ≤ w ∧ w ≤ 18 := by
  obtain ⟨d, hd1, hd7, hwd, ha⟩ := firstTuesdaySept_eq_some now.year
  by_cases hlt : dtKey now < dtKey (⟨now.year, 9, d, 0⟩ : PyDatetime)
  · refine ⟨_, 18, resolver_before ha hlt, ?_, by norm_num, by norm_num⟩
    show PyVal.str "18" = PyVal.str (toString (18 : Int))
    rw [string_of_int_18]
  · obtain ⟨w, h1, h2, h3⟩ := resolver_week_bounds ha hlt
    exact ⟨_, w, h3, rfl, h1, h2⟩

/-- Witness for C9 at a concrete date. -/
theorem C9_week_in_range_witness :
    ∃ (p : PyVal × PyVal) (w : Int),
      get_current_nfl_week ⟨2025, 1, 1, 0⟩ = some p ∧
        p.2 = .str (toString w) ∧ 1 ≤ w ∧ w ≤ 18 :=
  C9_week_in_range ⟨2025, 1, 1, 0⟩ (by decide)

/-- C3: a non-success status on either fetch makes the pipeline return no rows
and leaves the spreadsheet entirely unchanged. -/
theorem C3_fetch_failure_aborts (year week : String)
    (pr : HttpResponse (List (String × SleeperPlayer)))
    (sr : HttpResponse (List (String × List (String × Int))))
    (creds_ok : Bool) (sheet : List (List String))
    (h : pr.status_code ≠ 200 ∨ sr.status_code ≠ 200) :
    fetch_and_process_data year week pr sr = none ∧
      script_main year week pr sr creds_ok sheet = sheet := by
  have hfetch : fetch_and_process_data year week pr sr = none := by
    unfold fetch_and_process_data
    rcases h with h | h
    · rw [if_pos h]
    · by_cases hp : pr.status_code ≠ 200
      · rw [if_pos hp]
      · rw [if_neg hp, if_pos h]
  refine ⟨hfetch, ?_⟩
  unfold script_main
  rw [hfetch]

/-- Witness for C3 with a concrete failed roster fetch. -/
theorem C3_witness :
    fetch_and_process_data "2024" "5" ⟨500, []⟩ ⟨200, []⟩ = none ∧
      script_main "2024" "5" ⟨500, []⟩ ⟨200, []⟩ true [["5", "x"]] =
        [["5", "x"]] :=
  C3_fetch_failure_aborts "2024" "5" ⟨500, []⟩ ⟨200, []⟩ true [["5", "x"]]
    (Or.inl (by decide))

/-- C4: after the snap filter every row has a strictly positive snap count,
and — stat values being counts, hence nonnegative — the filter removes exactly
the rows whose snap count is zero. -/
theorem C4_snap_filter (records : List StatRecord)
    (h : ∀ r ∈ records, 0 ≤ r.snapCounts) :
    (∀ r ∈ snapFilter records, 0 < r.snapCounts) ∧
      snapFilter records = records.filter (fun r => !(r.snapCounts == 0)) := by
  constructor
  · intro r hr
    simpa using List.of_mem_filter hr
  · unfold snapFilter
    apply List.filter_congr
    intro r hr
    have h0 := h r hr
    by_cases hz : r.snapCounts = 0
    · simp [hz]
    · have hpos : 0 < r.snapCounts := lt_of_le_of_ne h0 (Ne.symm hz)
      simp [hz, hpos]

/-- Witness for C4 on a concrete two-row list. -/
theorem C4_witness :
    snapFilter [sampleRecordPlayed, sampleRecordBenched] =
      [sampleRecordPlayed, sampleRecordBenched].filter
        (fun r => !(r.snapCounts == 0)) :=
  (C4_snap_filter [sampleRecordPlayed, sampleRecordBenched] (by decide)).2

lemma filterMap_join (pm : List (String × PlayerEntry)) (week : String)
    (l : List (String × List (String × Int))) :
    l.filterMap (fun e =>
        (mapGet pm e.1).map (fun info => mkRecord week info e.2)) =
      (l.filter (fun e => (mapGet pm e.1).isSome)).map
        (fun e => mkRecord week ((mapGet pm e.1).getD ⟨"", "N/A", "N/A"⟩) e.2) := by
  induction l with
  | nil => rfl
  | cons e l ih =>
    rw [List.filterMap_cons, List.filter_cons]
    cases hm : mapGet pm e.1 with
    | none => simp [hm, ih]
    | some info => simp [hm, ih]

/-- C5: when both fetches succeed the join is an inner join on identifier:
the result rows are exactly one row per weekly-stat entry whose identifier is
present in the roster lookup; entries with an absent identifier are silently
skipped (the pipeline still returns a result, not an error). -/
theorem C5_inner_join (year week : String)
    (pr : HttpResponse (List (String × SleeperPlayer)))
    (sr : HttpResponse (List (String × List (String × Int))))
    (h1 : pr.status_code = 200) (h2 : sr.status_code = 200) :
    fetch_and_process_data year week pr sr =
      some ((sr.body.filter
          (fun e => (mapGet (player_map pr.body) e.1).isSome)).map
        (fun e => mkRecord week
          ((mapGet (player_map pr.body) e.1).getD ⟨"", "N/A", "N/A"⟩) e.2)) := by
  unfold fetch_and_process_data
  rw [if_neg (by simp [h1]), if_neg (by simp [h2]), filterMap_join]

/-- Witness for C5: id "99" is present in the weekly stats but absent from the
roster, so only id "1" yields a row. -/
theorem C5_witness :
    fetch_and_process_data "2024" "5" samplePlayersResp sampleTwoIdStatsResp =
      some [⟨"5", "Jon Doe", "ABC", "WR", 0, 0, 0, 0, 0, 0, 0, 12⟩] := by
  rw [C5_inner_join "2024" "5" samplePlayersResp sampleTwoIdStatsResp rfl rfl]
  decide

/-- C8: in a joined row, every one of the seven stat fields and the snap count
defaults to the numeric value 0 when its key is missing from the player's
weekly stat record. -/
theorem C8_missing_stats_default_zero (week : String) (info : PlayerEntry)
    (stats : List (String × Int)) :
    (mapGet stats "rec" = none → (mkRecord week info stats).receptions = 0) ∧
    (mapGet stats "rec_yd" = none →
      (mkRecord week info stats).receivingYards = 0) ∧
    (mapGet stats "rec_td" = none →
      (mkRecord week info stats).receivingTDs = 0) ∧
    (mapGet stats "rush_yd" = none →
      (mkRecord week info stats).rushingYards = 0) ∧
    (mapGet stats "rush_td" = none →
      (mkRecord week info stats).rushingTDs = 0) ∧
    (mapGet stats "pass_att" = none →
      (mkRecord week info stats).passingAttempts = 0) ∧
    (mapGet stats "rec_tgt" = none → (mkRecord week info stats).targets = 0) ∧
    (mapGet stats "off_snp" = none →
      (mkRecord week info stats).snapCounts = 0) := by
  refine ⟨fun h => ?_, fun h => ?_, fun h => ?_, fun h => ?_, fun h => ?_,
    fun h => ?_, fun h => ?_, fun h => ?_⟩ <;>
    simp [mkRecord, statGet, h]

/-- Witness for C8: a stat record carrying only `rec_yd` yields 0 receptions
and 0 snaps. -/
theorem C8_witness :
    (mkRecord "5" (mkPlayerEntry samplePlayer) [("rec_yd", 40)]).receptions = 0 ∧
      (mkRecord "5" (mkPlayerEntry samplePlayer) [("rec_yd", 40)]).snapCounts = 0 :=
  ⟨(C8_missing_stats_default_zero "5" (mkPlayerEntry samplePlayer)
      [("rec_yd", 40)]).1 rfl,
   (C8_missing_stats_default_zero "5" (mkPlayerEntry samplePlayer)
      [("rec_yd", 40)]).2.2.2.2.2.2.2 rfl⟩

/-- C10: if the pipeline succeeds but the join yields zero records, the update
function is never reached and the spreadsheet is left entirely unchanged —
no delete and no append. -/
theorem C10_empty_join_no_write (year week : String)
    (pr : HttpResponse (List (String × SleeperPlayer)))
    (sr : HttpResponse (List (String × List (String × Int))))
    (creds_ok : Bool) (sheet : List (List String))
    (h : fetch_and_process_data year week pr sr = some []) :
    script_main year week pr sr creds_ok sheet = sheet := by
  unfold script_main
  rw [h]
  simp

/-- Witness for C10: an empty weekly stat dataset, with rows for the resolved
week already on the sheet; they stay. -/
theorem C10_witness :
    script_main "2024" "5" samplePlayersResp ⟨200, []⟩ true [sampleSheetRow] =
      [sampleSheetRow] :=
  C10_empty_join_no_write "2024" "5" samplePlayersResp ⟨200, []⟩ true
    [sampleSheetRow] (by decide)

/-- C2 counterexample: with one roster player whose weekly snap count is 0,
the filter yields zero rows, yet the run does NOT leave the spreadsheet
unchanged — `update_google_sheet` is still invoked and deletes the previously
stored rows for the resolved week (the append alone is skipped). -/
theorem C2_counterexample :
    script_main "2024" "5" samplePlayersResp benchedStatsResp true
      [sampleSheetRow] ≠ [sampleSheetRow] := by
  decide

/-- C2 amended: when the join yields records but the snap filter leaves zero
rows, the update step still runs: it deletes every existing row whose first
cell equals the resolved week and appends nothing, so the final sheet is the
original sheet minus that week's rows. -/
theorem C2_empty_filter_still_deletes (year week : String)
    (pr : HttpResponse (List (String × SleeperPlayer)))
    (sr : HttpResponse (List (String × List (String × Int))))
    (sheet : List (List String)) (records : List StatRecord)
    (h1 : fetch_and_process_data year week pr sr = some records)
    (h2 : records ≠ []) (h3 : snapFilter records = []) :
    script_main year week pr sr true sheet =
      sheet.filter (fun row => !(row.head? == some week)) := by
  have hne : records.isEmpty = false := by
    cases records with
    | nil => exact absurd rfl h2
    | cons a l => rfl
  unfold script_main
  rw [h1]
  show (if records.isEmpty = true then sheet
        else if records.isEmpty = true then sheet
        else update_google_sheet true sheet (snapFilter records) week) =
      sheet.filter (fun row => !(row.head? == some week))
  rw [hne]
  simp only [Bool.false_eq_true, if_false]
  rw [h3]
  rw [show update_google_sheet true sheet ([] : List StatRecord) week =
        (findallCol1 sheet week).reverse.foldl delRow sheet from rfl]
  exact foldl_delRow_findall sheet week

/-- Witness for the amended C2: the week-5 row is deleted, the unrelated
week-4 row survives, and nothing is appended. -/
theorem C2_amended_witness :
    script_main "2024" "5" samplePlayersResp benchedStatsResp true
      [sampleSheetRow, ["4", "a"]] = [["4", "a"]] := by
  rw [C2_empty_filter_still_deletes "2024" "5" samplePlayersResp
    benchedStatsResp [sampleSheetRow, ["4", "a"]]
    [mkRecord "5" (mkPlayerEntry samplePlayer) [("off_snp", 0)]]
    (by decide) (by decide) (by decide)]
  decide

end SleeperStats
